import Mathlib

/-!
Verification of the endpoint-proxy layer (`src/framework/core/proxy.py`).

The Python classes `_EndpointProxy`, `RobotProxy`, `ROSEnvProxy` and
`ContainerProxy` are embedded shallowly: the mutable object state becomes an
explicit `ProxyState` record, every method becomes a function from state to an
`OpResult` carrying the successor state, the list of commands/notifications
forwarded to external collaborators (the control delegate, the owning user,
the registered interfaces, the logger), and an optional raised exception.
Python exception classes are embedded as the constructors of `PyError`;
dynamically typed parameter values as `PyVal`.
-/

/-- Embeds the Python exception kinds observable in `proxy.py`:
`InvalidRequest` and `InternalError` come from the repository's `errors`
module (the spec calls `InternalError` a StructuralError), `ValueError`,
`TypeError`, `IndexError` and `AttributeError` are Python built-ins
(`ValueError` also stands for its subclass `UnicodeEncodeError`), and
`interfaceError` embeds the exception raised by `util.interfaces.verifyObject`
when a delegate lacks a capability (the spec calls this ContractViolation). -/
inductive PyError where
  | invalidRequest (msg : String)
  | internalError (msg : String)
  | valueError (msg : String)
  | typeError (msg : String)
  | indexError (msg : String)
  | attributeError (msg : String)
  | interfaceError (msg : String)
deriving Repr, DecidableEq

/-- Embeds the dynamically typed Python values that can be supplied as
parameter values to `ROSEnvProxy.addParameter`. Python 2 distinguishes `str`
and `unicode`; both count as `basestring`. Machine floats are embedded as
rationals (scientific notation, infinities and NaN are outside the model). -/
inductive PyVal where
  | int (n : Int)
  | float (q : Rat)
  | bool (b : Bool)
  | str (s : String)
  | unicode (s : String)
  | list (elems : List PyVal)
  | none
deriving Repr

/-- Characters stripped by Python `str.strip()`. -/
def pySpace (c : Char) : Bool :=
  c = ' ' || c = '\t' || c = '\n' || c = '\r' || c = '\x0b' || c = '\x0c'

/-- Python `str.strip()` on a character list. -/
def pyStripL (cs : List Char) : List Char :=
  ((cs.dropWhile pySpace).reverse.dropWhile pySpace).reverse

/-- Python `str.strip()`. -/
def pyStrip (s : String) : String := String.mk (pyStripL s.toList)

/-- Python `str.lower()` (ASCII; all uses in `proxy.py` compare against
ASCII literals). -/
def pyLower (s : String) : String := String.mk (s.toList.map Char.toLower)

/-- Python `str.upper()` (ASCII). -/
def pyUpper (s : String) : String := String.mk (s.toList.map Char.toUpper)

/-- True when every character is 7-bit ASCII; Python 2 `str(u)` on a
`unicode` value succeeds exactly in this case (default codec). -/
def isAscii (s : String) : Bool := s.toList.all (fun c => c.toNat < 128)

/-- Helper for Python `str.split(sep)` with a one-character separator. -/
def splitCommaAux : List Char → List Char → List String
  | [], acc => [String.mk acc.reverse]
  | c :: cs, acc =>
    if c = ',' then String.mk acc.reverse :: splitCommaAux cs []
    else splitCommaAux cs (c :: acc)

/-- Python `s.split(',')` on a character list (`''.split(',') = ['']`). -/
def splitCommaL (cs : List Char) : List String := splitCommaAux cs []

/-- Value of a base-10 digit list. -/
def digitsToNat (ds : List Char) : Nat :=
  ds.foldl (fun a c => a * 10 + (c.toNat - 48)) 0

/-- Python 2 `int(s)` for a string: surrounding whitespace is stripped, an
optional sign is followed by at least one digit; anything else raises
`ValueError`. -/
def pyIntParse (s : String) : Except PyError Int :=
  let err : Except PyError Int :=
    .error (.valueError ("invalid literal for int with base 10: " ++ s))
  match pyStripL s.toList with
  | '+' :: ds =>
    if ds ≠ [] ∧ ds.all Char.isDigit then .ok (digitsToNat ds) else err
  | '-' :: ds =>
    if ds ≠ [] ∧ ds.all Char.isDigit then .ok (-(digitsToNat ds : Int)) else err
  | ds =>
    if ds ≠ [] ∧ ds.all Char.isDigit then .ok (digitsToNat ds) else err

/-- Python 2 `float(s)` for a string: optional sign, decimal digits with an
optional decimal point, at least one digit in total (scientific notation,
`inf` and `nan` are outside the model). -/
def pyFloatParse (s : String) : Except PyError Rat :=
  let err : Except PyError Rat :=
    .error (.valueError ("could not convert string to float: " ++ s))
  let core : List Char → Except PyError Rat := fun cs =>
    let intPart := cs.takeWhile Char.isDigit
    let rest := cs.dropWhile Char.isDigit
    match rest with
    | [] =>
      if intPart = [] then err else .ok (digitsToNat intPart : Rat)
    | '.' :: fracPart =>
      if fracPart.all Char.isDigit ∧ (intPart ≠ [] ∨ fracPart ≠ []) then
        .ok ((digitsToNat intPart : Rat) +
          (digitsToNat fracPart : Rat) / ((10 : Rat) ^ fracPart.length))
      else err
    | _ => err
  match pyStripL s.toList with
  | '+' :: cs => core cs
  | '-' :: cs => (core cs).map (fun q => -q)
  | cs => core cs

/-- Python 2 `int(value)`: identity on integers, `0`/`1` on booleans,
truncation toward zero on floats, `pyIntParse` on strings; any other type
raises `TypeError`. -/
def pyInt : PyVal → Except PyError Int
  | .int n => .ok n
  | .bool b => .ok (if b then 1 else 0)
  | .float q => .ok (Int.tdiv q.num (q.den : Int))
  | .str s => pyIntParse s
  | .unicode s => pyIntParse s
  | _ => .error (.typeError "int argument must be a string or a number")

/-- Python 2 `float(value)`: identity on floats, numeric conversions on
ints and booleans, `pyFloatParse` on strings; any other type raises
`TypeError`. -/
def pyFloat : PyVal → Except PyError Rat
  | .float q => .ok q
  | .int n => .ok (n : Rat)
  | .bool b => .ok (if b then 1 else 0)
  | .str s => pyFloatParse s
  | .unicode s => pyFloatParse s
  | _ => .error (.typeError "float argument must be a string or a number")

/-- Embeds `ROSEnvProxy._castStr` (proxy.py lines 281-289): a `str` passes
through, a `unicode` value is re-encoded once (`str(value)`, which raises
`UnicodeEncodeError`, a `ValueError` subclass, on non-ASCII content), and
anything else raises `ValueError`. -/
def _castStr : PyVal → Except PyError String
  | .str s => .ok s
  | .unicode s =>
    if isAscii s then .ok s
    else .error (.valueError "unicode characters cannot be encoded")
  | _ => .error (.valueError "Value is not a valid string.")

/-- True exactly on the Python `basestring` values. -/
def isPyString : PyVal → Bool
  | .str _ => true
  | .unicode _ => true
  | _ => false

/-- Embeds `ROSEnvProxy._castBool` (proxy.py lines 291-307): a string is
stripped and lower-cased and must read `true` or `false`; for every
non-string value `bool(int(value))` is attempted, with a `ValueError` from
`int` replaced by the method's own `ValueError` and any other exception
(e.g. `TypeError`) propagating unchanged. -/
def _castBool (value : PyVal) : Except PyError PyVal :=
  match value with
  | .str s =>
    let v := pyLower (pyStrip s)
    if v = "true" then .ok (PyVal.bool true)
    else if v = "false" then .ok (PyVal.bool false)
    else .error (.valueError "Value is not a valid bool.")
  | .unicode s =>
    let v := pyLower (pyStrip s)
    if v = "true" then .ok (PyVal.bool true)
    else if v = "false" then .ok (PyVal.bool false)
    else .error (.valueError "Value is not a valid bool.")
  | _ =>
    match pyInt value with
    | .ok n => .ok (PyVal.bool (n != 0))
    | .error (.valueError _) => .error (.valueError "Value is not a valid bool.")
    | .error e => .error e

/-- Embeds `ROSEnvProxy._cast` (proxy.py lines 309-321): dispatch on the
parameter type token; an unknown token raises `ValueError`. -/
def _cast (value : PyVal) (paramType : String) : Except PyError PyVal :=
  if paramType = "int" then
    match pyInt value with
    | .error e => .error e
    | .ok n => .ok (PyVal.int n)
  else if paramType = "str" then
    match _castStr value with
    | .error e => .error e
    | .ok s => .ok (PyVal.str s)
  else if paramType = "float" then
    match pyFloat value with
    | .error e => .error e
    | .ok q => .ok (PyVal.float q)
  else if paramType = "bool" then
    _castBool value
  else .error (.valueError "Parameter type is invalid.")

/-- Embeds the control delegate supplied to a proxy at construction. The
capability flags record which of the `core.interfaces` capability sets the
delegate provides (checked by `util.interfaces.verifyObject`, which is not
under src/). Modelled from the spec: a delegate implements one or more
capability sets and a proxy validates the set required by its kind once at
construction. `robotCreateFail` parametrizes the outcome of the external
`createRobot` delegate call, which may raise. -/
structure Control where
  hasEndpointControl : Bool
  hasRobotControl : Bool
  hasNodeControl : Bool
  hasParameterControl : Bool
  hasContainerControl : Bool
  robotCreateFail : Option PyError
deriving Repr, DecidableEq

/-- Embeds the mutable attributes of a proxy object. `_EndpointProxy` owns
`user` (`self._user`, the owner reference, cleared to `None` by `delete`),
`uid`, `commID`, `control` (`self._control`, cleared by `delete`) and
`interfaces` (`self._interfaces`, a set of interface handles compared by
identity, embedded as a duplicate-free list of opaque tokens in insertion
order); `ROSEnvProxy` adds `rosAddrs` (`self._rosAddrs`); `ContainerProxy`
adds `connected` (`self._connected`). -/
structure ProxyState where
  user : Option Nat
  uid : String
  commID : String
  control : Option Control
  interfaces : List Nat
  rosAddrs : List String
  connected : Bool
deriving Repr

/-- Embeds the command values of `core.command` that `proxy.py` builds and
forwards: `FileCommand(name, content)`, `ParameterCommand(name, value,
paramType)` and `ArrayCommand(name, value, paramType)`. -/
inductive ParamCmd where
  | file (name : String) (content : String)
  | param (name : String) (values : List PyVal) (typeCode : String)
  | array (name : String) (values : List PyVal) (typeCode : String)
deriving Repr

/-- One observable side effect on an external collaborator: a command
forwarded to the control delegate, a call on a registered interface, a
notification to the owning user, or a log line. Operations return the list
of such effects in the order they are performed. -/
inductive Event where
  | logMsg (msg : String)
  | registerControl (iface : Nat) (ctrl : Option Control)
  | interfaceDelete (iface : Nat)
  | createRobot (robotID : String) (key : String)
  | destroyRobot (uid : String)
  | createContainer (cTag : String) (commID : String)
  | destroyContainer (uid : String)
  | addNodeCmd (tag : String) (pkg : String) (exe : String) (args : String)
      (name : String) (nspace : String)
  | removeNodeCmd (tag : String)
  | addParamCmd (cmd : ParamCmd)
  | removeParamCmd (name : String)
  | containerUpdate (user : Nat) (uid : String) (flag : Bool)
deriving Repr

/-- Result of running one proxy method: the state of the object afterwards
(Python mutations performed before an exception persist), the effects
performed, and the exception raised, if any. -/
structure OpResult where
  state : ProxyState
  events : List Event
  error : Option PyError
deriving Repr

/-- Embeds `_EndpointProxy.registerInterface` (proxy.py lines 96-107): a
handle already in the set raises `InternalError` (the spec's
StructuralError / DuplicateRegistration); otherwise the handle is bound to
the delegate (`interface.registerControl(self._control)`) and added. -/
def registerInterface (st : ProxyState) (iface : Nat) : OpResult :=
  if iface ∈ st.interfaces then
    ⟨st, [], some (.internalError
      "There exists already an interface with the same tag.")⟩
  else
    ⟨{ st with interfaces := st.interfaces ++ [iface] },
     [Event.registerControl iface st.control], Option.none⟩

/-- Embeds `_EndpointProxy.unregisterInterface` (proxy.py lines 109-120):
an absent handle raises `InternalError` (the spec's StructuralError /
NotRegistered); otherwise it is removed. -/
def unregisterInterface (st : ProxyState) (iface : Nat) : OpResult :=
  if iface ∈ st.interfaces then
    ⟨{ st with interfaces := st.interfaces.erase iface }, [], Option.none⟩
  else
    ⟨st, [], some (.internalError
      "Tried to unregister a non existing interface.")⟩

/-- Embeds `_EndpointProxy.delete` (proxy.py lines 122-134): iterate a copy
of the interface set calling `delete()` on each handle, then clear the owner
and delegate references. The interface set itself is not cleared here; in
the running system each interface unregisters itself during its own
`delete()`, which the snapshot tolerates. -/
def endpointDelete (st : ProxyState) : OpResult :=
  ⟨{ st with user := Option.none, control := Option.none },
   st.interfaces.map Event.interfaceDelete, Option.none⟩

/-- Message of the `AttributeError` Python raises when a method is invoked
on a cleared (`None`) reference. -/
def noneAttr (meth : String) : String :=
  "NoneType object has no attribute " ++ meth

/-- Exception raised by `util.interfaces.verifyObject` (not under src/).
Modelled from the spec: ContractViolation, the delegate lacks the required
capability, detected once at construction. -/
def verifyFail (iface : String) : PyError :=
  .interfaceError ("Delegate does not provide " ++ iface)

/-- Embeds `RobotProxy.__init__` (proxy.py lines 140-164):
`verifyObject(IRobotControl, control)`, then the base constructor's
`verifyObject(IEndpointControl, control)` and attribute initialization, then
one `control.createRobot(RobotCommand(robotID, key))` call, whose failure
(parametrized by `Control.robotCreateFail`) propagates from construction.
Returns the effects performed and either the constructed state or the
exception. -/
def robotProxyInit (user : Nat) (robotID commID key : String) (c : Control) :
    List Event × Except PyError ProxyState :=
  if c.hasRobotControl = false then
    ([], .error (verifyFail "IRobotControl"))
  else if c.hasEndpointControl = false then
    ([], .error (verifyFail "IEndpointControl"))
  else
    match c.robotCreateFail with
    | some e => ([Event.createRobot robotID key], .error e)
    | Option.none =>
      ([Event.createRobot robotID key],
       .ok ⟨some user, robotID, commID, some c, [], [], false⟩)

/-- Embeds `ROSEnvProxy.reserveAddr` (proxy.py lines 393-404): an address
already in `self._rosAddrs` raises `ValueError` (the spec's AddressInUse);
otherwise it is added. -/
def reserveAddr (st : ProxyState) (addr : String) : OpResult :=
  if addr ∈ st.rosAddrs then
    ⟨st, [], some (.valueError "Address already is in use.")⟩
  else
    ⟨{ st with rosAddrs := st.rosAddrs ++ [addr] }, [], Option.none⟩

/-- Embeds `ROSEnvProxy.freeAddr` (proxy.py lines 406-415): an address not
in `self._rosAddrs` is only logged (the spec's Anomaly — no exception);
otherwise it is removed. -/
def freeAddr (st : ProxyState) (addr : String) : OpResult :=
  if addr ∈ st.rosAddrs then
    ⟨{ st with rosAddrs := st.rosAddrs.erase addr }, [], Option.none⟩
  else
    ⟨st, [Event.logMsg "Tried to free an address which was not reserved."],
     Option.none⟩

/-- Embeds `ContainerProxy.setConnectedFlag` (proxy.py lines 455-475):
setting `True` while `self._connected` already holds raises
`InvalidRequest` without notifying; otherwise the flag is assigned and the
owner is notified via `self._user.sendContainerUpdate(self._uid, flag)`
(an `AttributeError` if the owner reference is cleared, after the flag was
already mutated). -/
def setConnectedFlag (st : ProxyState) (flag : Bool) : OpResult :=
  if flag then
    if st.connected then
      ⟨st, [], some (.invalidRequest ("Tried to set container to connected "
        ++ "which already is registered as connected."))⟩
    else
      match st.user with
      | Option.none =>
        ⟨{ st with connected := true }, [],
         some (.attributeError (noneAttr "sendContainerUpdate"))⟩
      | some u =>
        ⟨{ st with connected := true },
         [Event.containerUpdate u st.uid true], Option.none⟩
  else
    match st.user with
    | Option.none =>
      ⟨{ st with connected := false }, [],
       some (.attributeError (noneAttr "sendContainerUpdate"))⟩
    | some u =>
      ⟨{ st with connected := false },
       [Event.containerUpdate u st.uid false], Option.none⟩

/-- True on `\w` characters of the Python 2 `re` module (ASCII mode). -/
def isWordChar (c : Char) : Bool := c.isAlpha || c.isDigit || c = '_'

/-- True when two consecutive slashes occur. -/
def hasDoubleSlash : List Char → Bool
  | [] => false
  | [_] => false
  | a :: b :: rest => (a = '/' && b = '/') || hasDoubleSlash (b :: rest)

/-- Modelled from the spec: the external graph-resource name validator
consumed by the proxy layer (`rosgraph.names.is_legal_name`, not part of
this repository) — a hierarchical, slash-delimited identifier over a
restricted character set: the empty string is legal, otherwise the first
character is `~`, `/` or a letter, every later character is a word
character or `/`, and `//` never occurs. -/
def is_legal_name (name : String) : Bool :=
  match name.toList with
  | [] => true
  | c :: cs =>
    (c = '~' || c = '/' || c.isAlpha) &&
      cs.all (fun d => isWordChar d || d = '/') &&
      !(hasDoubleSlash (c :: cs))

/-- A Python 2 string-typed argument: either a `str` or a `unicode`
object. `addNode` re-encodes `unicode` arguments before use. -/
inductive PyStr where
  | s (v : String)
  | u (v : String)
deriving Repr, DecidableEq

/-- Underlying character content of a `PyStr`. -/
def pyStrVal : PyStr → String
  | .s w => w
  | .u w => w

/-- The `isinstance(x, unicode)` re-encoding preamble of `addNode`
(proxy.py lines 231-259): a `str` is kept, a `unicode` value becomes its
`str` form when ASCII and otherwise fails (`UnicodeEncodeError`, turned
into `InvalidRequest` by the caller). -/
def coerceArg : PyStr → Option String
  | .s w => some w
  | .u w => if isAscii w then some w else Option.none

/-- Formats `The name "{0}" is not valid.` -/
def nameInvalidMsg (name : String) : String :=
  "The name \"" ++ name ++ "\" is not valid."

/-- Formats `The namespace "{0}" is not valid.` -/
def nsInvalidMsg (ns : String) : String :=
  "The namespace \"" ++ ns ++ "\" is not valid."

/-- Formats `The package "{0}" is not valid.` -/
def pkgInvalidMsg (p : String) : String :=
  "The package \"" ++ p ++ "\" is not valid."

/-- Formats `The executable "{0}" is not valid.` -/
def exeInvalidMsg (e : String) : String :=
  "The executable \"" ++ e ++ "\" is not valid."

/-- Formats the `addNode` log line (proxy.py lines 265-266). -/
def addNodeLog (pkg exe tag commID : String) : String :=
  "Start node \"" ++ pkg ++ "/" ++ exe ++ "\" (tag: \"" ++ tag ++
    "\") in ROS environment \"" ++ commID ++ "\"."

/-- Formats the `removeNode` log line (proxy.py lines 277-278). -/
def removeNodeLog (tag commID : String) : String :=
  "Remove node (tag: \"" ++ tag ++ "\") from ROS environment \"" ++
    commID ++ "\"."

/-- Formats the `addParameter` log line (proxy.py lines 378-379). -/
def addParamLog (name commID : String) : String :=
  "Add parameter \"" ++ name ++ "\" to ROS environment \"" ++ commID ++ "\"."

/-- Formats the `removeParameter` log line (proxy.py lines 389-390). -/
def removeParamLog (name commID : String) : String :=
  "Remove parameter \"" ++ name ++ "\" from ROS environment \"" ++
    commID ++ "\"."

/-- Embeds `ROSEnvProxy.addNode` (proxy.py lines 206-268): re-encode the
four string arguments, check the namespace against the graph-resource name
validator, then log and forward one `NodeCommand(tag, pkg, exe, args, name,
namespace)` to the delegate. -/
def addNode (st : ProxyState) (tag : String) (pkg exe : PyStr) (args : String)
    (name nspace : PyStr) : OpResult :=
  match coerceArg pkg with
  | Option.none => ⟨st, [], some (.invalidRequest (pkgInvalidMsg (pyStrVal pkg)))⟩
  | some pkgS =>
    match coerceArg exe with
    | Option.none => ⟨st, [], some (.invalidRequest (exeInvalidMsg (pyStrVal exe)))⟩
    | some exeS =>
      match coerceArg name with
      | Option.none =>
        ⟨st, [], some (.invalidRequest (nameInvalidMsg (pyStrVal name)))⟩
      | some nameS =>
        match coerceArg nspace with
        | Option.none =>
          ⟨st, [], some (.invalidRequest (nsInvalidMsg (pyStrVal nspace)))⟩
        | some nsS =>
          if is_legal_name nsS = false then
            ⟨st, [], some (.invalidRequest (nsInvalidMsg nsS))⟩
          else
            match st.control with
            | Option.none =>
              ⟨st, [Event.logMsg (addNodeLog pkgS exeS tag st.commID)],
               some (.attributeError (noneAttr "addNode"))⟩
            | some _ =>
              ⟨st, [Event.logMsg (addNodeLog pkgS exeS tag st.commID),
                    Event.addNodeCmd tag pkgS exeS args nameS nsS],
               Option.none⟩

/-- Embeds `ROSEnvProxy.removeNode` (proxy.py lines 270-279): log, then
forward one node-removal command; no local existence check. -/
def removeNode (st : ProxyState) (tag : String) : OpResult :=
  match st.control with
  | Option.none =>
    ⟨st, [Event.logMsg (removeNodeLog tag st.commID)],
     some (.attributeError (noneAttr "removeNode"))⟩
  | some _ =>
    ⟨st, [Event.logMsg (removeNodeLog tag st.commID),
          Event.removeNodeCmd tag], Option.none⟩

/-- Embeds `ROSEnvProxy.removeParameter` (proxy.py lines 382-391): log,
then forward one parameter-removal command; no local existence check. -/
def removeParameter (st : ProxyState) (name : String) : OpResult :=
  match st.control with
  | Option.none =>
    ⟨st, [Event.logMsg (removeParamLog name st.commID)],
     some (.attributeError (noneAttr "removeParameter"))⟩
  | some _ =>
    ⟨st, [Event.logMsg (removeParamLog name st.commID),
          Event.removeParamCmd name], Option.none⟩

/-- Python `len`/iteration on the `value` argument of the array branch of
`addParameter`: lists enumerate their elements, strings enumerate their
one-character substrings, every other type raises `TypeError` (from
`len(value)`). -/
def pySeq : PyVal → Except PyError (List PyVal)
  | .list vs => .ok vs
  | .str s => .ok (s.toList.map (fun c => PyVal.str (String.mk [c])))
  | .unicode s => .ok (s.toList.map (fun c => PyVal.unicode (String.mk [c])))
  | _ => .error (.typeError "object has no len")

/-- The element-wise coercion `[self._cast(*pair) for pair in zip(value,
paramType)]` of proxy.py line 372: left to right, stopping at the first
exception. -/
def castPairs : List (PyVal × String) → Except PyError (List PyVal)
  | [] => .ok []
  | p :: ps =>
    match _cast p.1 p.2 with
    | .error e => .error e
    | .ok w =>
      match castPairs ps with
      | .error e => .error e
      | .ok ws => .ok (w :: ws)

/-- Python `p.upper()[0]`: the first character of the upper-cased token,
an `IndexError` when the token is empty. -/
def firstUpper (t : String) : Except PyError Char :=
  match (pyUpper t).toList with
  | [] => .error (.indexError "string index out of range")
  | c :: _ => .ok c

/-- The composite type code `''.join(p.upper()[0] for p in paramType)` of
proxy.py line 373, as the character list it joins. -/
def typeCode : List String → Except PyError (List Char)
  | [] => .ok []
  | t :: ts =>
    match firstUpper t with
    | .error e => .error e
    | .ok c =>
      match typeCode ts with
      | .error e => .error e
      | .ok cs => .ok (c :: cs)

/-- Total description of `p.upper()[0]` for tokens known to be non-empty;
used only to state theorems about successful runs. -/
def tokenCode (t : String) : Char := (pyUpper t).toList.headD ' '

/-- Error message of the length check at proxy.py lines 367-370. -/
def lenMismatchMsg : String :=
  "Length of parameter specification does not match length of supplied values."

/-- Common tail of both non-file branches of `addParameter` (proxy.py
lines 367-374): compare the value count with the token count, coerce each
value with its paired token, build the composite type code, and build the
command. -/
def finishParam (mk : String → List PyVal → String → ParamCmd) (name : String)
    (seqE : Except PyError (List PyVal)) (ts : List String) :
    Except PyError ParamCmd :=
  match seqE with
  | .error e => .error e
  | .ok seq =>
    if seq.length ≠ ts.length then .error (.invalidRequest lenMismatchMsg)
    else
      match castPairs (seq.zip ts) with
      | .error e => .error e
      | .ok ws =>
        match typeCode ts with
        | .error e => .error e
        | .ok cs => .ok (mk name ws (String.mk cs))

/-- The non-file branch dispatch of `addParameter` (proxy.py lines
358-365) on the character list of the stripped type string:
`paramType[0]` on the empty string raises `IndexError`; a string that
starts with `[` and ends with `]` is split on commas into stripped tokens
and built as an `ArrayCommand` over the sequence `value`; anything else is
a scalar type built as a `ParameterCommand` over `[value]`. -/
def mkParamCore (name : String) (value : PyVal) (l : String) :
    List Char → Except PyError ParamCmd
  | [] => .error (.indexError "string index out of range")
  | c0 :: rest =>
    if c0 = '[' ∧ rest.getLast? = some ']' then
      finishParam ParamCmd.array name (pySeq value)
        ((splitCommaL rest.dropLast).map pyStrip)
    else
      finishParam ParamCmd.param name (.ok [value]) [l]

/-- The `try` block body of `addParameter` (proxy.py lines 354-374) on the
stripped type string `l`: the sentinel `file` builds a `FileCommand` from
the string-coerced value, everything else goes through `mkParamCore`. -/
def mkParam (name : String) (value : PyVal) (l : String) :
    Except PyError ParamCmd :=
  if l = "file" then
    match _castStr value with
    | .error e => .error e
    | .ok s => .ok (ParamCmd.file name s)
  else mkParamCore name value l l.toList

/-- The `except ValueError as e: raise InvalidRequest(str(e))` handler of
proxy.py lines 375-376: a `ValueError` is re-raised as `InvalidRequest`
with the same message, every other outcome passes through. -/
def liftValueError : Except PyError ParamCmd → Except PyError ParamCmd
  | .error (.valueError m) => .error (.invalidRequest m)
  | r => r

/-- Embeds `ROSEnvProxy.addParameter` (proxy.py lines 323-380): validate
the name, strip the type string, build the command under the
`ValueError`-to-`InvalidRequest` handler, then log and forward the command
to the delegate. -/
def addParameter (st : ProxyState) (name : String) (value : PyVal)
    (paramType : String) : OpResult :=
  if is_legal_name name = false then
    ⟨st, [], some (.invalidRequest (nameInvalidMsg name))⟩
  else
    match liftValueError (mkParam name value (pyStrip paramType)) with
    | .error e => ⟨st, [], some e⟩
    | .ok param =>
      match st.control with
      | Option.none =>
        ⟨st, [Event.logMsg (addParamLog name st.commID)],
         some (.attributeError (noneAttr "addParameter"))⟩
      | some _ =>
        ⟨st, [Event.logMsg (addParamLog name st.commID),
              Event.addParamCmd param], Option.none⟩

/-- A fully capable delegate whose `createRobot` call succeeds. -/
def ctrlAll : Control := ⟨true, true, true, true, true, Option.none⟩

/-- A live example proxy state used to instantiate the theorems below. -/
def exSt : ProxyState := ⟨some 0, "env", "commE", some ctrlAll, [], [], false⟩

lemma cast_ok_firstUpper (v w : PyVal) (t : String)
    (h : _cast v t = Except.ok w) :
    firstUpper t = Except.ok (tokenCode t) := by
  unfold _cast at h
  split_ifs at h with h1 h2 h3 h4
  all_goals first
    | (subst h1; rfl)
    | (subst h2; rfl)
    | (subst h3; rfl)
    | (subst h4; rfl)

lemma castPairs_typeCode :
    ∀ (ts : List String) (vs ws : List PyVal),
      vs.length = ts.length →
      castPairs (vs.zip ts) = Except.ok ws →
      typeCode ts = Except.ok (ts.map tokenCode)
  | [], _, _, _, _ => by simp [typeCode]
  | t :: ts, [], ws, hlen, h => by simp at hlen
  | t :: ts, v :: vs, ws, hlen, h => by
    rw [List.zip_cons_cons] at h
    unfold castPairs at h
    cases hc : _cast v t with
    | error e => rw [hc] at h; exact absurd h (by simp)
    | ok w =>
      rw [hc] at h
      cases hcp : castPairs (vs.zip ts) with
      | error e => rw [hcp] at h; exact absurd h (by simp)
      | ok ws2 =>
        have hrec := castPairs_typeCode ts vs ws2 (by simpa using hlen) hcp
        simp [typeCode, cast_ok_firstUpper v w t hc, hrec]

lemma mkParam_array (name l : String) (mid : List Char) (vs ws : List PyVal)
    (hbr : l.toList = '[' :: mid ++ [']'])
    (hlen : vs.length = ((splitCommaL mid).map pyStrip).length)
    (hcast : castPairs (vs.zip ((splitCommaL mid).map pyStrip)) =
      Except.ok ws) :
    mkParam name (PyVal.list vs) l =
      Except.ok (ParamCmd.array name ws
        (String.mk (((splitCommaL mid).map pyStrip).map tokenCode))) := by
  have hfile : ¬ (l = "file") := by
    intro h
    rw [h] at hbr
    have hfl : ("file" : String).toList = ['f', 'i', 'l', 'e'] := rfl
    rw [hfl] at hbr
    injection hbr with h1 _
    exact absurd h1 (by decide)
  unfold mkParam
  rw [if_neg hfile, hbr]
  rw [show mkParamCore name (PyVal.list vs) l ('[' :: mid ++ [']']) =
      (if ('[' : Char) = '[' ∧ (mid ++ [']']).getLast? = some (']' : Char) then
        finishParam ParamCmd.array name (pySeq (PyVal.list vs))
          ((splitCommaL (mid ++ [']']).dropLast).map pyStrip)
      else finishParam ParamCmd.param name (Except.ok [PyVal.list vs]) [l])
    from rfl]
  rw [if_pos ⟨rfl, by rw [List.getLast?_concat]⟩]
  rw [List.dropLast_concat]
  unfold finishParam
  have hps : pySeq (PyVal.list vs) = Except.ok vs := rfl
  rw [hps]
  simp only []
  rw [if_neg (by simp [hlen])]
  rw [hcast]
  simp only []
  rw [castPairs_typeCode _ _ _ hlen hcast]

/-- C1: an array-typed `addParameter` call with a legal name, whose
bracketed type string splits into tokens that all coerce their paired
values successfully and whose value count equals the token count, succeeds:
each element is coerced per its paired token, the composite type code is
the concatenation of the upper-cased first letter of each token in order,
and exactly one parameter command carrying (name, coerced values, type
code) is forwarded to the delegate. -/
theorem C1_addParameter_array_ok (st : ProxyState) (c : Control)
    (name pt : String) (mid : List Char) (vs ws : List PyVal)
    (hctl : st.control = some c)
    (hname : is_legal_name name = true)
    (hbr : (pyStrip pt).toList = '[' :: mid ++ [']'])
    (hlen : vs.length = ((splitCommaL mid).map pyStrip).length)
    (hcast : castPairs (vs.zip ((splitCommaL mid).map pyStrip)) =
      Except.ok ws) :
    addParameter st name (PyVal.list vs) pt =
      ⟨st, [Event.logMsg (addParamLog name st.commID),
            Event.addParamCmd (ParamCmd.array name ws
              (String.mk (((splitCommaL mid).map pyStrip).map tokenCode)))],
       Option.none⟩ := by
  have hmk := mkParam_array name (pyStrip pt) mid vs ws hbr hlen hcast
  unfold addParameter
  rw [hname]
  simp only [Bool.true_eq_false, if_false]
  rw [hmk]
  unfold liftValueError
  rw [hctl]

/-- C1 witness: `addParameter("/ns/p", ["5", "x", True], "[int,str,bool]")`
coerces to `[5, "x", True]` with composite type code `ISB` and forwards
exactly one matching array command. -/
theorem C1_addParameter_array_ok_witness :
    castPairs ([PyVal.str "5", PyVal.str "x", PyVal.bool true].zip
        ((splitCommaL ("int,str,bool".toList)).map pyStrip)) =
      Except.ok [PyVal.int 5, PyVal.str "x", PyVal.bool true] ∧
    addParameter exSt "/ns/p"
        (PyVal.list [PyVal.str "5", PyVal.str "x", PyVal.bool true])
        "[int,str,bool]" =
      ⟨exSt, [Event.logMsg (addParamLog "/ns/p" exSt.commID),
              Event.addParamCmd (ParamCmd.array "/ns/p"
                [PyVal.int 5, PyVal.str "x", PyVal.bool true] "ISB")],
       Option.none⟩ :=
  ⟨rfl, by
    have h := C1_addParameter_array_ok exSt ctrlAll "/ns/p" "[int,str,bool]"
      ("int,str,bool".toList)
      [PyVal.str "5", PyVal.str "x", PyVal.bool true]
      [PyVal.int 5, PyVal.str "x", PyVal.bool true]
      rfl rfl rfl rfl rfl
    exact h.trans rfl⟩

/-- C2: in a bool-typed coercion a string that reads `true`/`false` after
stripping and case-folding maps to the corresponding boolean, any other
string fails, a non-string value falls back to integer truth conversion
(`bool(int(value))`), and the failure is surfaced by `addParameter` as
`InvalidRequest`; in particular `addParameter("/ns/f", "true", "bool")`
coerces to `True` and the same call with `"maybe"` fails with
`InvalidRequest`. -/
theorem C2_castBool_policy :
    (∀ s : String, pyLower (pyStrip s) = "true" →
      _castBool (PyVal.str s) = Except.ok (PyVal.bool true) ∧
      _castBool (PyVal.unicode s) = Except.ok (PyVal.bool true)) ∧
    (∀ s : String, pyLower (pyStrip s) = "false" →
      _castBool (PyVal.str s) = Except.ok (PyVal.bool false) ∧
      _castBool (PyVal.unicode s) = Except.ok (PyVal.bool false)) ∧
    (∀ v : PyVal, isPyString v = false → ∀ n : Int,
      pyInt v = Except.ok n →
      _castBool v = Except.ok (PyVal.bool (n != 0))) ∧
    (∀ s : String, pyLower (pyStrip s) ≠ "true" →
      pyLower (pyStrip s) ≠ "false" →
      _castBool (PyVal.str s) =
        Except.error (PyError.valueError "Value is not a valid bool.")) ∧
    addParameter exSt "/ns/f" (PyVal.str "true") "bool" =
      ⟨exSt, [Event.logMsg (addParamLog "/ns/f" exSt.commID),
              Event.addParamCmd (ParamCmd.param "/ns/f" [PyVal.bool true] "B")],
       Option.none⟩ ∧
    addParameter exSt "/ns/f" (PyVal.str "maybe") "bool" =
      ⟨exSt, [], some (PyError.invalidRequest "Value is not a valid bool.")⟩ := by
  refine ⟨?_, ?_, ?_, ?_, rfl, rfl⟩
  · intro s h
    exact ⟨by simp [_castBool, h], by simp [_castBool, h]⟩
  · intro s h
    exact ⟨by simp [_castBool, h], by simp [_castBool, h]⟩
  · intro v hv n hn
    cases v with
    | str s => simp [isPyString] at hv
    | unicode s => simp [isPyString] at hv
    | int m => simp only [_castBool]; rw [hn]
    | float q => simp only [_castBool]; rw [hn]
    | bool b => simp only [_castBool]; rw [hn]
    | list es => simp only [_castBool]; rw [hn]
    | none => simp only [_castBool]; rw [hn]
  · intro s h1 h2
    simp [_castBool, h1, h2]

/-- C2 witness: `" True "` strips and folds to `true` and coerces to the
boolean `True`; the non-string `5` falls back to integer truth conversion
and coerces to `True`. -/
theorem C2_castBool_policy_witness :
    pyLower (pyStrip " True ") = "true" ∧
    _castBool (PyVal.str " True ") = Except.ok (PyVal.bool true) ∧
    isPyString (PyVal.int 5) = false ∧
    _castBool (PyVal.int 5) = Except.ok (PyVal.bool true) :=
  ⟨rfl, (C2_castBool_policy.1 " True " rfl).1, rfl, by
    have h := C2_castBool_policy.2.2.1 (PyVal.int 5) rfl 5 rfl
    exact h.trans rfl⟩

lemma bracket_ne_file (l : String) (mid : List Char)
    (hbr : l.toList = '[' :: mid ++ [']']) : ¬ (l = "file") := by
  intro h
  rw [h] at hbr
  have hfl : ("file" : String).toList = ['f', 'i', 'l', 'e'] := rfl
  rw [hfl] at hbr
  injection hbr with h1 _
  exact absurd h1 (by decide)

lemma mkParam_len_mismatch (name l : String) (mid : List Char)
    (vs : List PyVal)
    (hbr : l.toList = '[' :: mid ++ [']'])
    (hlen : vs.length ≠ ((splitCommaL mid).map pyStrip).length) :
    mkParam name (PyVal.list vs) l =
      Except.error (PyError.invalidRequest lenMismatchMsg) := by
  unfold mkParam
  rw [if_neg (bracket_ne_file l mid hbr), hbr]
  rw [show mkParamCore name (PyVal.list vs) l ('[' :: mid ++ [']']) =
      (if ('[' : Char) = '[' ∧ (mid ++ [']']).getLast? = some (']' : Char) then
        finishParam ParamCmd.array name (pySeq (PyVal.list vs))
          ((splitCommaL (mid ++ [']']).dropLast).map pyStrip)
      else finishParam ParamCmd.param name (Except.ok [PyVal.list vs]) [l])
    from rfl]
  rw [if_pos ⟨rfl, by rw [List.getLast?_concat]⟩]
  rw [List.dropLast_concat]
  unfold finishParam
  have hps : pySeq (PyVal.list vs) = Except.ok vs := rfl
  rw [hps]
  simp only []
  rw [if_pos hlen]

/-- C3: an array-typed `addParameter` call with a legal name whose supplied
value count differs from the token count fails with `InvalidRequest` and
forwards no command to the delegate. -/
theorem C3_addParameter_len_mismatch (st : ProxyState) (name pt : String)
    (mid : List Char) (vs : List PyVal)
    (hname : is_legal_name name = true)
    (hbr : (pyStrip pt).toList = '[' :: mid ++ [']'])
    (hlen : vs.length ≠ ((splitCommaL mid).map pyStrip).length) :
    addParameter st name (PyVal.list vs) pt =
      ⟨st, [], some (PyError.invalidRequest lenMismatchMsg)⟩ := by
  have hmk := mkParam_len_mismatch name (pyStrip pt) mid vs hbr hlen
  unfold addParameter
  rw [hname]
  simp only [Bool.true_eq_false, if_false]
  rw [hmk]
  rfl

/-- C3 witness: `addParameter("/ns/p", [1, 2], "[int]")` fails with
`InvalidRequest` (2 values against 1 type token) and forwards nothing. -/
theorem C3_addParameter_len_mismatch_witness :
    [PyVal.int 1, PyVal.int 2].length ≠
      ((splitCommaL ("int".toList)).map pyStrip).length ∧
    addParameter exSt "/ns/p" (PyVal.list [PyVal.int 1, PyVal.int 2])
        "[int]" =
      ⟨exSt, [], some (PyError.invalidRequest lenMismatchMsg)⟩ :=
  ⟨by decide, by
    have h := C3_addParameter_len_mismatch exSt "/ns/p" "[int]"
      ("int".toList) [PyVal.int 1, PyVal.int 2] rfl rfl (by decide)
    exact h⟩

/-- Number of `interfaceDelete` events for handle `i` in an event list. -/
def countInterfaceDelete (i : Nat) : List Event → Nat
  | [] => 0
  | Event.interfaceDelete j :: es =>
    (if j = i then 1 else 0) + countInterfaceDelete i es
  | _ :: es => countInterfaceDelete i es

lemma countInterfaceDelete_map (i : Nat) :
    ∀ l : List Nat,
      countInterfaceDelete i (l.map Event.interfaceDelete) = l.count i
  | [] => rfl
  | j :: l => by
    simp only [List.map_cons, countInterfaceDelete,
      countInterfaceDelete_map i l, List.count_cons, beq_iff_eq]
    split_ifs <;> omega

lemma removeNode_error_of_no_control (st : ProxyState)
    (hc : st.control = Option.none) (tag : String) :
    (removeNode st tag).error.isSome = true := by
  unfold removeNode
  rw [hc]
  rfl

lemma removeParameter_error_of_no_control (st : ProxyState)
    (hc : st.control = Option.none) (name : String) :
    (removeParameter st name).error.isSome = true := by
  unfold removeParameter
  rw [hc]
  rfl

lemma addParameter_error_of_no_control (st : ProxyState)
    (hc : st.control = Option.none) (name : String) (v : PyVal)
    (pt : String) :
    (addParameter st name v pt).error.isSome = true := by
  unfold addParameter
  by_cases hn : is_legal_name name = false
  · rw [if_pos hn]
    rfl
  · rw [if_neg hn]
    cases hm : liftValueError (mkParam name v (pyStrip pt)) with
    | error e => rfl
    | ok p =>
      rw [hc]
      rfl

lemma addNode_error_of_no_control (st : ProxyState)
    (hc : st.control = Option.none) (tag : String) (pkg exe : PyStr)
    (args : String) (name nspace : PyStr) :
    (addNode st tag pkg exe args name nspace).error.isSome = true := by
  unfold addNode
  cases hp : coerceArg pkg with
  | none => rfl
  | some pkgS =>
    cases he : coerceArg exe with
    | none => rfl
    | some exeS =>
      cases hn : coerceArg name with
      | none => rfl
      | some nameS =>
        cases hns : coerceArg nspace with
        | none => rfl
        | some nsS =>
          simp only []
          by_cases hleg : is_legal_name nsS = false
          · rw [if_pos hleg]
            rfl
          · rw [if_neg hleg, hc]
            rfl

lemma setConnectedFlag_error_of_no_user (st : ProxyState)
    (hu : st.user = Option.none) (flag : Bool) :
    (setConnectedFlag st flag).error.isSome = true := by
  unfold setConnectedFlag
  cases flag with
  | false =>
    rw [if_neg (by simp)]
    rw [hu]
    rfl
  | true =>
    rw [if_pos rfl]
    by_cases hcn : st.connected = true
    · rw [if_pos hcn]
      rfl
    · rw [if_neg hcn, hu]
      rfl

lemma reserveAddr_fresh (st : ProxyState) (a : String)
    (ha : a ∉ st.rosAddrs) : (reserveAddr st a).error = Option.none := by
  unfold reserveAddr
  rw [if_neg ha]

/-- C4 counterexample: on a proxy with two registered interfaces,
`delete()` clears the owner and delegate references, yet the subsequent
`reserveAddr` operation still succeeds (it touches only `self._rosAddrs`),
refuting that any operation on the proxy after `delete()` fails. -/
theorem C4_delete_counterexample :
    (endpointDelete
        ⟨some 0, "env", "commE", some ctrlAll, [1, 2], [], false⟩).state.user =
      Option.none ∧
    (endpointDelete
        ⟨some 0, "env", "commE", some ctrlAll, [1, 2], [], false⟩).state.control =
      Option.none ∧
    (reserveAddr
        (endpointDelete
          ⟨some 0, "env", "commE", some ctrlAll, [1, 2], [], false⟩).state
        "A").error = Option.none :=
  ⟨rfl, rfl, rfl⟩

/-- C4 (amended): `delete()` iterates a snapshot of the current interface
set invoking `delete()` on each registered interface exactly once, then
clears the owner and delegate references; afterwards every operation that
invokes the delegate or the owner (`addNode`, `removeNode`,
`addParameter`, `removeParameter`, `setConnectedFlag`) fails, while pure
local address bookkeeping such as `reserveAddr` still succeeds. -/
theorem C4_delete_amended (st : ProxyState) (h : st.interfaces.Nodup) :
    (endpointDelete st).events = st.interfaces.map Event.interfaceDelete ∧
    (∀ i ∈ st.interfaces,
      countInterfaceDelete i (endpointDelete st).events = 1) ∧
    (endpointDelete st).state.user = Option.none ∧
    (endpointDelete st).state.control = Option.none ∧
    (∀ tag, (removeNode (endpointDelete st).state tag).error.isSome = true) ∧
    (∀ nm,
      (removeParameter (endpointDelete st).state nm).error.isSome = true) ∧
    (∀ tag pkg exe args nm ns,
      (addNode (endpointDelete st).state tag pkg exe args nm
        ns).error.isSome = true) ∧
    (∀ nm v pt,
      (addParameter (endpointDelete st).state nm v pt).error.isSome =
        true) ∧
    (∀ flag,
      (setConnectedFlag (endpointDelete st).state flag).error.isSome =
        true) ∧
    (∀ a, a ∉ st.rosAddrs →
      (reserveAddr (endpointDelete st).state a).error = Option.none) := by
  refine ⟨rfl, ?_, rfl, rfl, ?_, ?_, ?_, ?_, ?_, ?_⟩
  · intro i hi
    have hev : (endpointDelete st).events =
        st.interfaces.map Event.interfaceDelete := rfl
    rw [hev, countInterfaceDelete_map]
    exact List.count_eq_one_of_mem h hi
  · intro tag
    exact removeNode_error_of_no_control _ rfl tag
  · intro nm
    exact removeParameter_error_of_no_control _ rfl nm
  · intro tag pkg exe args nm ns
    exact addNode_error_of_no_control _ rfl tag pkg exe args nm ns
  · intro nm v pt
    exact addParameter_error_of_no_control _ rfl nm v pt
  · intro flag
    exact setConnectedFlag_error_of_no_user _ rfl flag
  · intro a ha
    exact reserveAddr_fresh _ a ha

/-- C4 witness: on a proxy with interfaces 1 and 2 registered, `delete()`
invokes `delete()` on handle 1 exactly once. -/
theorem C4_delete_amended_witness :
    ([1, 2] : List Nat).Nodup ∧
    countInterfaceDelete 1
      (endpointDelete
        ⟨some 0, "env", "commE", some ctrlAll, [1, 2], [], false⟩).events =
      1 :=
  ⟨by decide, by
    have h := C4_delete_amended
      ⟨some 0, "env", "commE", some ctrlAll, [1, 2], [], false⟩ (by decide)
    exact h.2.1 1 (by decide)⟩

lemma freeAddr_error_none (st : ProxyState) (a : String) :
    (freeAddr st a).error = Option.none := by
  unfold freeAddr
  split <;> rfl

/-- C5: address reservation is strictly exclusive per environment —
`reserveAddr` on a reserved address fails with `ValueError` (the spec's
AddressInUse) leaving the set unchanged, otherwise adds it; `freeAddr`
removes a present address and only logs an anomaly for an absent one, so
freeing twice succeeds both times while reserving twice fails on the
second call. -/
theorem C5_addr_exclusive (st : ProxyState) (addr : String) :
    (addr ∈ st.rosAddrs →
      reserveAddr st addr =
        ⟨st, [], some (PyError.valueError "Address already is in use.")⟩) ∧
    (addr ∉ st.rosAddrs →
      reserveAddr st addr =
        ⟨{ st with rosAddrs := st.rosAddrs ++ [addr] }, [],
         Option.none⟩) ∧
    (addr ∉ st.rosAddrs →
      (reserveAddr (reserveAddr st addr).state addr).error =
        some (PyError.valueError "Address already is in use.")) ∧
    (addr ∈ st.rosAddrs →
      freeAddr st addr =
        ⟨{ st with rosAddrs := st.rosAddrs.erase addr }, [],
         Option.none⟩) ∧
    (addr ∉ st.rosAddrs →
      freeAddr st addr =
        ⟨st,
         [Event.logMsg "Tried to free an address which was not reserved."],
         Option.none⟩) ∧
    (freeAddr st addr).error = Option.none ∧
    (freeAddr (freeAddr st addr).state addr).error = Option.none := by
  refine ⟨?_, ?_, ?_, ?_, ?_, freeAddr_error_none st addr,
    freeAddr_error_none _ addr⟩
  · intro hmem
    unfold reserveAddr
    rw [if_pos hmem]
  · intro hmem
    unfold reserveAddr
    rw [if_neg hmem]
  · intro hmem
    have h1 : (reserveAddr st addr).state =
        { st with rosAddrs := st.rosAddrs ++ [addr] } := by
      unfold reserveAddr
      rw [if_neg hmem]
    rw [h1]
    unfold reserveAddr
    rw [if_pos (by simp)]
  · intro hmem
    unfold freeAddr
    rw [if_pos hmem]
  · intro hmem
    unfold freeAddr
    rw [if_neg hmem]

/-- C5 witness: on a live environment with no reserved addresses,
`reserveAddr("A")` succeeds once and fails the second time, while
`freeAddr("A")` succeeds twice in a row. -/
theorem C5_addr_exclusive_witness :
    ("A" ∉ exSt.rosAddrs) ∧
    (reserveAddr (reserveAddr exSt "A").state "A").error =
      some (PyError.valueError "Address already is in use.") ∧
    (freeAddr exSt "A").error = Option.none ∧
    (freeAddr (freeAddr exSt "A").state "A").error = Option.none := by
  have h := C5_addr_exclusive exSt "A"
  exact ⟨by decide, h.2.2.1 (by decide), h.2.2.2.2.2.1, h.2.2.2.2.2.2⟩

/-- C6: interface registration is a strict set operation on handle
identity — `registerInterface` on a present handle fails with
`InternalError` (the spec's StructuralError) and otherwise binds the handle
to the delegate and adds it; `unregisterInterface` on an absent handle
fails with `InternalError` and otherwise removes it; registering the same
handle twice fails on the second call. -/
theorem C6_interface_registration (st : ProxyState) (i : Nat) :
    (i ∈ st.interfaces →
      registerInterface st i =
        ⟨st, [], some (PyError.internalError
          "There exists already an interface with the same tag.")⟩) ∧
    (i ∉ st.interfaces →
      registerInterface st i =
        ⟨{ st with interfaces := st.interfaces ++ [i] },
         [Event.registerControl i st.control], Option.none⟩) ∧
    (i ∉ st.interfaces →
      (registerInterface (registerInterface st i).state i).error =
        some (PyError.internalError
          "There exists already an interface with the same tag.")) ∧
    (i ∉ st.interfaces →
      unregisterInterface st i =
        ⟨st, [], some (PyError.internalError
          "Tried to unregister a non existing interface.")⟩) ∧
    (i ∈ st.interfaces →
      unregisterInterface st i =
        ⟨{ st with interfaces := st.interfaces.erase i }, [],
         Option.none⟩) := by
  refine ⟨?_, ?_, ?_, ?_, ?_⟩
  · intro hmem
    unfold registerInterface
    rw [if_pos hmem]
  · intro hmem
    unfold registerInterface
    rw [if_neg hmem]
  · intro hmem
    have h1 : (registerInterface st i).state =
        { st with interfaces := st.interfaces ++ [i] } := by
      unfold registerInterface
      rw [if_neg hmem]
    rw [h1]
    unfold registerInterface
    rw [if_pos (by simp)]
  · intro hmem
    unfold unregisterInterface
    rw [if_neg hmem]
  · intro hmem
    unfold unregisterInterface
    rw [if_pos hmem]

/-- C6 witness: registering handle 7 on a live proxy with an empty
interface set succeeds, registering it again fails with `InternalError`,
and unregistering a never-registered handle fails with `InternalError`. -/
theorem C6_interface_registration_witness :
    (7 ∉ exSt.interfaces) ∧
    registerInterface exSt 7 =
      ⟨{ exSt with interfaces := [7] },
       [Event.registerControl 7 exSt.control], Option.none⟩ ∧
    (registerInterface (registerInterface exSt 7).state 7).error =
      some (PyError.internalError
        "There exists already an interface with the same tag.") ∧
    unregisterInterface exSt 7 =
      ⟨exSt, [], some (PyError.internalError
        "Tried to unregister a non existing interface.")⟩ := by
  have h := C6_interface_registration exSt 7
  exact ⟨by decide, (h.2.1 (by decide)).trans rfl, h.2.2.1 (by decide),
    h.2.2.2.1 (by decide)⟩

/-- C7: `setConnectedFlag` is asymmetric — on a live proxy, setting `True`
while the flag already holds fails with `InvalidRequest` and issues no
notification; setting `True` from `False` sets the flag and notifies the
owner with `True`; setting `False` always succeeds and always notifies the
owner with `False`, even when the flag is already `False`. -/
theorem C7_setConnectedFlag_asymmetric (st : ProxyState) (u : Nat)
    (hu : st.user = some u) :
    (st.connected = true →
      setConnectedFlag st true =
        ⟨st, [], some (PyError.invalidRequest
          ("Tried to set container to connected "
            ++ "which already is registered as connected."))⟩) ∧
    (st.connected = false →
      setConnectedFlag st true =
        ⟨{ st with connected := true },
         [Event.containerUpdate u st.uid true], Option.none⟩) ∧
    (setConnectedFlag st false =
      ⟨{ st with connected := false },
       [Event.containerUpdate u st.uid false], Option.none⟩) := by
  refine ⟨?_, ?_, ?_⟩
  · intro hcn
    unfold setConnectedFlag
    rw [if_pos rfl, if_pos hcn]
  · intro hcn
    unfold setConnectedFlag
    rw [if_pos rfl, if_neg (by rw [hcn]; exact Bool.false_ne_true), hu]
  · unfold setConnectedFlag
    rw [if_neg (by simp), hu]

/-- C7 witness: starting disconnected, the first `setConnectedFlag(True)`
succeeds and notifies with `True`, the second fails with `InvalidRequest`,
and `setConnectedFlag(False)` succeeds with a notification even though the
flag is already `False`. -/
theorem C7_setConnectedFlag_asymmetric_witness :
    exSt.user = some 0 ∧ exSt.connected = false ∧
    setConnectedFlag exSt true =
      ⟨{ exSt with connected := true },
       [Event.containerUpdate 0 exSt.uid true], Option.none⟩ ∧
    setConnectedFlag { exSt with connected := true } true =
      ⟨{ exSt with connected := true },
       [], some (PyError.invalidRequest
         ("Tried to set container to connected "
           ++ "which already is registered as connected."))⟩ ∧
    setConnectedFlag exSt false =
      ⟨{ exSt with connected := false },
       [Event.containerUpdate 0 exSt.uid false], Option.none⟩ := by
  refine ⟨rfl, rfl, ?_, ?_, ?_⟩
  · exact (C7_setConnectedFlag_asymmetric exSt 0 rfl).2.1 rfl
  · exact ((C7_setConnectedFlag_asymmetric { exSt with connected := true }
      0 rfl).1 rfl).trans rfl
  · exact (C7_setConnectedFlag_asymmetric exSt 0 rfl).2.2

/-- C8: `addNode` with inputs whose string coercions succeed fails with
`InvalidRequest` forwarding no command when the namespace violates the
graph-resource naming rules, and with a legal namespace succeeds and
forwards exactly one node-creation command with the fields (tag, package,
executable, args, name, namespace) unchanged. -/
theorem C8_addNode_namespace (st : ProxyState) (c : Control)
    (tag args pkgS exeS nameS nsS : String) (pkg exe name nspace : PyStr)
    (hp : coerceArg pkg = some pkgS)
    (he : coerceArg exe = some exeS)
    (hn : coerceArg name = some nameS)
    (hns : coerceArg nspace = some nsS) :
    (is_legal_name nsS = false →
      addNode st tag pkg exe args name nspace =
        ⟨st, [], some (PyError.invalidRequest (nsInvalidMsg nsS))⟩) ∧
    (is_legal_name nsS = true → st.control = some c →
      addNode st tag pkg exe args name nspace =
        ⟨st, [Event.logMsg (addNodeLog pkgS exeS tag st.commID),
              Event.addNodeCmd tag pkgS exeS args nameS nsS],
         Option.none⟩) := by
  constructor
  · intro hleg
    unfold addNode
    rw [hp, he, hn, hns]
    simp only []
    rw [if_pos hleg]
  · intro hleg hctl
    unfold addNode
    rw [hp, he, hn, hns]
    simp only []
    rw [if_neg (by rw [hleg]; decide), hctl]

/-- C8 witness: `addNode` with namespace `"123bad!"` fails with
`InvalidRequest` forwarding no command, while the same call with namespace
`"/ns"` forwards exactly one node-creation command with all fields
unchanged. -/
theorem C8_addNode_namespace_witness :
    is_legal_name "123bad!" = false ∧
    addNode exSt "t1" (PyStr.s "pkg") (PyStr.s "exe") "a1" (PyStr.s "nd")
        (PyStr.s "123bad!") =
      ⟨exSt, [], some (PyError.invalidRequest (nsInvalidMsg "123bad!"))⟩ ∧
    addNode exSt "t1" (PyStr.s "pkg") (PyStr.s "exe") "a1" (PyStr.s "nd")
        (PyStr.s "/ns") =
      ⟨exSt, [Event.logMsg (addNodeLog "pkg" "exe" "t1" exSt.commID),
              Event.addNodeCmd "t1" "pkg" "exe" "a1" "nd" "/ns"],
       Option.none⟩ := by
  refine ⟨rfl, ?_, ?_⟩
  · exact (C8_addNode_namespace exSt ctrlAll "t1" "a1" "pkg" "exe" "nd"
      "123bad!" (PyStr.s "pkg") (PyStr.s "exe") (PyStr.s "nd")
      (PyStr.s "123bad!") rfl rfl rfl rfl).1 rfl
  · exact (C8_addNode_namespace exSt ctrlAll "t1" "a1" "pkg" "exe" "nd"
      "/ns" (PyStr.s "pkg") (PyStr.s "exe") (PyStr.s "nd")
      (PyStr.s "/ns") rfl rfl rfl rfl).2 rfl rfl

/-- C9: `RobotProxy` construction fails with the capability-verification
error (the spec's ContractViolation) issuing no creation command when the
delegate lacks the robot-control capability; when the capability checks
pass it synchronously issues exactly one creation command carrying
(robotID, authKey), and any failure of that command propagates from
construction. -/
theorem C9_robot_construction (user : Nat) (robotID commID key : String)
    (c : Control) :
    (c.hasRobotControl = false →
      robotProxyInit user robotID commID key c =
        ([], Except.error (verifyFail "IRobotControl"))) ∧
    (c.hasRobotControl = true → c.hasEndpointControl = true →
      (robotProxyInit user robotID commID key c).1 =
        [Event.createRobot robotID key] ∧
      (∀ e, c.robotCreateFail = some e →
        (robotProxyInit user robotID commID key c).2 = Except.error e) ∧
      (c.robotCreateFail = Option.none →
        (robotProxyInit user robotID commID key c).2 =
          Except.ok ⟨some user, robotID, commID, some c, [], [], false⟩)) := by
  constructor
  · intro hr
    unfold robotProxyInit
    rw [if_pos hr]
  · intro hr he
    have hr' : ¬ (c.hasRobotControl = false) := by
      rw [hr]; decide
    have he' : ¬ (c.hasEndpointControl = false) := by
      rw [he]; decide
    refine ⟨?_, ?_, ?_⟩
    · unfold robotProxyInit
      rw [if_neg hr', if_neg he']
      cases hf : c.robotCreateFail with
      | none => rfl
      | some e => rfl
    · intro e hf
      unfold robotProxyInit
      rw [if_neg hr', if_neg he', hf]
    · intro hf
      unfold robotProxyInit
      rw [if_neg hr', if_neg he', hf]

/-- C9 witness: a delegate without robot control is rejected with no
creation command, while a fully capable delegate yields exactly one
creation command carrying (robotID, authKey) and a constructed proxy. -/
theorem C9_robot_construction_witness :
    Control.hasRobotControl ⟨true, false, true, true, true, Option.none⟩ =
      false ∧
    robotProxyInit 0 "r1" "commR" "k1"
        ⟨true, false, true, true, true, Option.none⟩ =
      ([], Except.error (verifyFail "IRobotControl")) ∧
    (robotProxyInit 0 "r1" "commR" "k1" ctrlAll).1 =
      [Event.createRobot "r1" "k1"] ∧
    (robotProxyInit 0 "r1" "commR" "k1" ctrlAll).2 =
      Except.ok ⟨some 0, "r1", "commR", some ctrlAll, [], [], false⟩ := by
  refine ⟨rfl, ?_, ?_, ?_⟩
  · exact (C9_robot_construction 0 "r1" "commR" "k1"
      ⟨true, false, true, true, true, Option.none⟩).1 rfl
  · exact ((C9_robot_construction 0 "r1" "commR" "k1" ctrlAll).2 rfl rfl).1
  · exact ((C9_robot_construction 0 "r1" "commR" "k1" ctrlAll).2 rfl
      rfl).2.2 rfl

/-- C10: there are `addParameter` inputs that fail with an error other
than `InvalidRequest`: a `paramType` that strips to the empty string hits
the out-of-range index `paramType[0]` (an `IndexError`) before any
validation error can be raised, and bool coercion of `None` — neither a
string nor convertible to `int` — raises a `TypeError` that the
`ValueError`-only handler does not catch and convert. -/
theorem C10_non_invalidRequest_failures :
    addParameter exSt "/ns/p" (PyVal.int 1) "  " =
      ⟨exSt, [], some (PyError.indexError "string index out of range")⟩ ∧
    addParameter exSt "/ns/f" PyVal.none "bool" =
      ⟨exSt, [],
       some (PyError.typeError
         "int argument must be a string or a number")⟩ :=
  ⟨rfl, rfl⟩
